import Mathlib

/-!
# Verification of the Forth cancellation monitor's deduplicated delivery pipeline

Shallow embedding of the core of `app.py` (class `GmailSlackMonitor`) and of
`clear_database.py`:

* the body decoder `extract_message_body` (MIME tree → plain text),
* the identity extractor `extract_record_id` / `create_content_hash`,
* the ledger wrappers `is_message_processed`, `mark_message_processed`,
  `is_duplicate_by_content`, `mark_content_processed` over the SQLite table
  `processed`, with explicit storage-fault modelling,
* the per-message poll logic of `poll_gmail` and the Slack payload builder of
  `post_to_slack`,
* the administrative reset `clear_database`.

External collaborators (the Gmail client, the HTTP sink, and the `hashlib.md5`
digest) are modelled as oracle parameters; the Python standard library's
`base64.urlsafe_b64decode` / UTF-8 codec are modelled concretely below for
inputs over the base64url alphabet (the code only ever feeds them data produced
by the mailbox provider).
-/

namespace ForthMonitor

/-! ## UTF-8 codec

Model of `str.encode()` / `bytes.decode('utf-8')` (strict): unicode scalar
values are represented as `Nat`, bytes as `Nat` below 256. -/

/-- UTF-8 encoding of a single unicode scalar value. -/
def utf8EncodeScalar (n : Nat) : List Nat :=
  if n < 0x80 then [n]
  else if n < 0x800 then [0xC0 + n / 64, 0x80 + n % 64]
  else if n < 0x10000 then
    [0xE0 + n / 4096, 0x80 + n / 64 % 64, 0x80 + n % 64]
  else
    [0xF0 + n / 262144, 0x80 + n / 4096 % 64, 0x80 + n / 64 % 64, 0x80 + n % 64]

/-- UTF-8 encoding of a string (Python `s.encode('utf-8')`). -/
def utf8Encode (s : String) : List Nat :=
  (s.data.map (fun c => utf8EncodeScalar c.toNat)).foldr (· ++ ·) []

/-- One step of the strict UTF-8 decoder (Python `bytes.decode('utf-8')`):
reads a single scalar from the head of the byte stream, rejecting truncated
sequences, stray continuation bytes, overlong encodings, surrogates and
values above `0x10FFFF`; returns the scalar and the remaining bytes. -/
def utf8Step : List Nat → Option (Nat × List Nat)
  | [] => none
  | b :: bs =>
    if b < 0x80 then some (b, bs)
    else if b < 0xC2 then none
    else if b < 0xE0 then
      match bs with
      | b1 :: bs1 =>
        if 0x80 ≤ b1 ∧ b1 < 0xC0 then
          some ((b - 0xC0) * 64 + (b1 - 0x80), bs1)
        else none
      | [] => none
    else if b < 0xF0 then
      match bs with
      | b1 :: b2 :: bs2 =>
        if (0x80 ≤ b1 ∧ b1 < 0xC0) ∧ (0x80 ≤ b2 ∧ b2 < 0xC0) then
          let n := (b - 0xE0) * 4096 + (b1 - 0x80) * 64 + (b2 - 0x80)
          if 0x800 ≤ n ∧ ¬(0xD800 ≤ n ∧ n < 0xE000) then some (n, bs2)
          else none
        else none
      | _ => none
    else if b < 0xF5 then
      match bs with
      | b1 :: b2 :: b3 :: bs3 =>
        if (0x80 ≤ b1 ∧ b1 < 0xC0) ∧ (0x80 ≤ b2 ∧ b2 < 0xC0) ∧
            (0x80 ≤ b3 ∧ b3 < 0xC0) then
          let n := (b - 0xF0) * 262144 + (b1 - 0x80) * 4096 +
            (b2 - 0x80) * 64 + (b3 - 0x80)
          if 0x10000 ≤ n ∧ n < 0x110000 then some (n, bs3)
          else none
        else none
      | _ => none
    else none

/-- A successful decode step consumes at least one byte. -/
theorem utf8Step_shrinks :
    ∀ l n rest, utf8Step l = some (n, rest) → rest.length < l.length := by
  intro l n rest h
  match l with
  | [] => simp [utf8Step] at h
  | b :: bs =>
    unfold utf8Step at h
    dsimp only at h
    split_ifs at h
    all_goals try split at h
    all_goals try split_ifs at h
    all_goals simp_all
    all_goals omega

/-- The decoding loop, driven by a fuel counter that starts at the stream
length (each step consumes at least one byte, so the fuel never runs out on
the streams `utf8DecodeScalars` feeds it). -/
def utf8DecodeLoop : Nat → List Nat → Option (List Nat)
  | _, [] => some []
  | 0, _ :: _ => none
  | fuel + 1, b :: bs =>
    match utf8Step (b :: bs) with
    | some (n, rest) => (utf8DecodeLoop fuel rest).map (n :: ·)
    | none => none

/-- Strict UTF-8 decoding of a whole byte stream to scalar values. -/
def utf8DecodeScalars (l : List Nat) : Option (List Nat) :=
  utf8DecodeLoop l.length l

/-- Any sufficient amount of fuel computes the same decoding. -/
theorem utf8DecodeLoop_fuel (f1 : Nat) :
    ∀ f2 l, l.length ≤ f1 → l.length ≤ f2 →
      utf8DecodeLoop f1 l = utf8DecodeLoop f2 l := by
  induction f1 with
  | zero =>
    intro f2 l h1 _
    match l with
    | [] =>
      match f2 with
      | 0 => rfl
      | g + 1 => rfl
    | _ :: _ => simp at h1
  | succ g1 ih =>
    intro f2 l h1 h2
    match l with
    | [] =>
      match f2 with
      | 0 => rfl
      | g + 1 => rfl
    | b :: bs =>
      match f2 with
      | 0 => simp at h2
      | g2 + 1 =>
        show (match utf8Step (b :: bs) with
          | some (n, rest) => (utf8DecodeLoop g1 rest).map (n :: ·)
          | none => none) =
          (match utf8Step (b :: bs) with
          | some (n, rest) => (utf8DecodeLoop g2 rest).map (n :: ·)
          | none => none)
        match hs : utf8Step (b :: bs) with
        | some (n, rest) =>
          have hlt := utf8Step_shrinks (b :: bs) n rest hs
          simp only [List.length_cons] at h1 h2 hlt
          dsimp only
          rw [ih g2 rest (by omega) (by omega)]
        | none => rfl

/-- Unfolding `utf8DecodeScalars` through a successful step. -/
theorem utf8DecodeScalars_of_step (l : List Nat) (n : Nat) (rest : List Nat)
    (h : utf8Step l = some (n, rest)) :
    utf8DecodeScalars l = (utf8DecodeScalars rest).map (n :: ·) := by
  match l with
  | [] => simp [utf8Step] at h
  | b :: bs =>
    have hlt := utf8Step_shrinks (b :: bs) n rest h
    show utf8DecodeLoop (b :: bs).length (b :: bs) = _
    simp only [List.length_cons]
    show (match utf8Step (b :: bs) with
      | some (n, rest) => (utf8DecodeLoop bs.length rest).map (n :: ·)
      | none => none) = _
    rw [h]
    simp only [List.length_cons] at hlt
    dsimp only
    rw [utf8DecodeLoop_fuel bs.length rest.length rest (by omega) (by omega)]
    rfl

/-- UTF-8 decoding of a byte list to a string. -/
def utf8Decode (bs : List Nat) : Option String :=
  (utf8DecodeScalars bs).map (fun ns => String.mk (ns.map Char.ofNat))

/-! ## base64url codec

Model of `base64.urlsafe_b64encode` / `base64.urlsafe_b64decode` on inputs over
the base64url alphabet (with or without `=` padding, as the mailbox provider
emits); inputs outside the alphabet or with a dangling single character are
rejected. -/

/-- The base64url alphabet. -/
def b64Alphabet : List Char :=
  "ABCDEFGHIJKLMNOPQRSTUVWXYZabcdefghijklmnopqrstuvwxyz0123456789-_".data

/-- The character encoding a 6-bit group. -/
def b64Char (n : Nat) : Char := b64Alphabet.getD n 'A'

/-- The 6-bit value of an alphabet character. -/
def b64Val (c : Char) : Option Nat := b64Alphabet.findIdx? (· = c)

/-- base64url encoding of a byte list. -/
def b64urlEncode : List Nat → List Char
  | [] => []
  | [b1] => [b64Char (b1 / 4), b64Char (b1 % 4 * 16), '=', '=']
  | [b1, b2] =>
    [b64Char (b1 / 4), b64Char (b1 % 4 * 16 + b2 / 16), b64Char (b2 % 16 * 4), '=']
  | b1 :: b2 :: b3 :: rest =>
    b64Char (b1 / 4) :: b64Char (b1 % 4 * 16 + b2 / 16) ::
      b64Char (b2 % 16 * 4 + b3 / 64) :: b64Char (b3 % 64) :: b64urlEncode rest

/-- base64url decoding of a character list to bytes. -/
def b64urlDecode : List Char → Option (List Nat)
  | [] => some []
  | [_] => none
  | [c1, c2] =>
    match b64Val c1, b64Val c2 with
    | some v1, some v2 => some [v1 * 4 + v2 / 16]
    | _, _ => none
  | [c1, c2, c3] =>
    match b64Val c1, b64Val c2, b64Val c3 with
    | some v1, some v2, some v3 => some [v1 * 4 + v2 / 16, v2 % 16 * 16 + v3 / 4]
    | _, _, _ => none
  | c1 :: c2 :: c3 :: c4 :: rest =>
    if c3 = '=' then
      match b64Val c1, b64Val c2 with
      | some v1, some v2 =>
        if c4 = '=' ∧ rest = [] then some [v1 * 4 + v2 / 16] else none
      | _, _ => none
    else if c4 = '=' then
      match b64Val c1, b64Val c2, b64Val c3 with
      | some v1, some v2, some v3 =>
        if rest = [] then some [v1 * 4 + v2 / 16, v2 % 16 * 16 + v3 / 4] else none
      | _, _, _ => none
    else
      match b64Val c1, b64Val c2, b64Val c3, b64Val c4 with
      | some v1, some v2, some v3, some v4 =>
        (b64urlDecode rest).map
          (fun bs => (v1 * 4 + v2 / 16) :: (v2 % 16 * 16 + v3 / 4) ::
            (v3 % 4 * 64 + v4) :: bs)
      | _, _, _, _ => none

/-- Model of `base64.urlsafe_b64decode(data).decode('utf-8')`, with `Option` standing
for the `try/except` failure path. -/
def decodeData (data : List Char) : Option String :=
  (b64urlDecode data).bind utf8Decode

/-- Convenience: the base64url transport form of a UTF-8 string, as the
mailbox provider produces it. -/
def encodeData (s : String) : List Char := b64urlEncode (utf8Encode s)

/-! ## The MIME body tree and `extract_message_body` -/

/-- The length of `dropWhile` never exceeds the input's length. -/
theorem length_dropWhile_le (p : α → Bool) (l : List α) :
    (l.dropWhile p).length ≤ l.length := by
  induction l with
  | nil => simp
  | cons a t ih =>
    by_cases h : p a
    · simp only [List.dropWhile_cons, h, if_true]
      exact Nat.le_succ_of_le ih
    · simp [List.dropWhile_cons, h]

/-- The scanning loop of `re.sub(r'<[^>]+>', '', html)`: a `<` followed by at
least one non-`>` character and then a `>` is removed together with what it
encloses, any other character is kept. Driven by a fuel counter that starts at
the input length (each step consumes at least one character). -/
def stripHtmlTagsAux : Nat → List Char → List Char
  | _, [] => []
  | 0, l => l
  | fuel + 1, c :: rest =>
    if c = '<' then
      match rest.dropWhile (fun d => d ≠ '>') with
      | [] => c :: stripHtmlTagsAux fuel rest
      | _ :: after =>
        if rest.takeWhile (fun d => d ≠ '>') = [] then
          c :: stripHtmlTagsAux fuel rest
        else stripHtmlTagsAux fuel after
    else c :: stripHtmlTagsAux fuel rest

/-- Model of `re.sub(r'<[^>]+>', '', html)` on character lists. -/
def stripHtmlTags (l : List Char) : List Char := stripHtmlTagsAux l.length l

/-- Model of `re.sub(r'<[^>]+>', '', html)` on strings. -/
def stripTags (s : String) : String := String.mk (stripHtmlTags s.data)

/-- A node of the Gmail `payload` dict: a media type, the inline
base64url `body.data` (absent data modelled as `[]`, matching the code's
`part.get('body', \x7b\x7d).get('data', '')` default), child `parts` (an
absent key behaves exactly like an empty list in `extract_message_body`, so
both are modelled as `[]`), and the dict's `snippet` entry (read only at the
top level by `payload.get('snippet', '')`). -/
inductive Payload where
  | node (mimeType : String) (data : List Char) (parts : List Payload)
      (snippet : String) : Payload

mutual

/-- The nested closure `extract_from_part` of `extract_message_body`: a plain
part decodes its data (a failure yields `""`), an HTML part decodes and strips
tags, any other part recurses into its children and returns the first
non-empty result. -/
def extract_from_part : Payload → String
  | .node mimeType data parts _ =>
    if mimeType = "text/plain" then
      if data ≠ [] then
        match decodeData data with
        | some t => t
        | none => ""
      else ""
    else if mimeType = "text/html" then
      if data ≠ [] then
        match decodeData data with
        | some t => stripTags t
        | none => ""
      else ""
    else extract_from_parts parts

/-- The `for subpart in part['parts']` loop: first non-empty result wins. -/
def extract_from_parts : List Payload → String
  | [] => ""
  | p :: ps =>
    let r := extract_from_part p
    if r ≠ "" then r else extract_from_parts ps

end

/-- Model of `GmailSlackMonitor.extract_message_body`: a top-level plain or HTML node
returns its decoded (and, for HTML, tag-stripped) text directly; a decode
failure or missing data leaves `body = ""`; any other media type scans the
child parts for the first non-empty result; the final
`return body or payload.get('snippet', '')` falls back to the payload's
snippet entry exactly when `body` is the empty string. -/
def extract_message_body : Payload → String
  | .node mimeType data parts snippet =>
    if mimeType = "text/plain" then
      match (if data ≠ [] then decodeData data else none) with
      | some t => t
      | none => snippet
    else if mimeType = "text/html" then
      match (if data ≠ [] then (decodeData data).map stripTags else none) with
      | some t => t
      | none => snippet
    else
      let body := extract_from_parts parts
      if body = "" then snippet else body

/-- The search portion of `extract_message_body` (the value of its local
variable `body` just before the `return body or snippet` fallback, with the
direct-return branches included). -/
def found_body_text : Payload → String
  | .node mimeType data parts _ =>
    if mimeType = "text/plain" then
      match (if data ≠ [] then decodeData data else none) with
      | some t => t
      | none => ""
    else if mimeType = "text/html" then
      match (if data ≠ [] then (decodeData data).map stripTags else none) with
      | some t => t
      | none => ""
    else extract_from_parts parts

/-! ## The identity extractor: `extract_record_id` and `create_content_hash`

The four patterns of `extract_record_id` are Python regexes searched with
`re.IGNORECASE`; they are modelled here over ASCII (`\d` as `0`-`9`, `\s` as
the six ASCII whitespace characters), which matches Python on the ASCII texts
the provider emits. `re.search` is leftmost-match: the model tries the
pattern at every position from the left. -/

/-- The class `\d` (ASCII). -/
def isReDigit (c : Char) : Bool := decide (48 ≤ c.toNat ∧ c.toNat ≤ 57)

/-- The class `\s` (ASCII). -/
def isReSpace (c : Char) : Bool :=
  [' ', '\t', '\n', '\r', '\x0b', '\x0c'].contains c

/-- Case-insensitive literal-prefix match returning the rest of the input. -/
def stripPrefixCI : List Char → List Char → Option (List Char)
  | [], l => some l
  | _ :: _, [] => none
  | p :: ps, c :: cs =>
    if p.toLower = c.toLower then stripPrefixCI ps cs else none

/-- The group `(\d+)` at the head of the input: the (greedy) captured digit run. -/
def captureDigits (l : List Char) : Option (List Char) :=
  let ds := l.takeWhile isReDigit
  if ds = [] then none else some ds

/-- Pattern `Record ID:\s*(\d+)` anchored at the current position. -/
def matchRecordColon1 (l : List Char) : Option (List Char) :=
  (stripPrefixCI "record id:".data l).bind fun r =>
    captureDigits (r.dropWhile isReSpace)

/-- Pattern `Record\s+ID:\s*(\d+)` anchored at the current position. -/
def matchRecordColon2 (l : List Char) : Option (List Char) :=
  (stripPrefixCI "record".data l).bind fun r =>
    if r.takeWhile isReSpace = [] then none
    else
      (stripPrefixCI "id:".data (r.dropWhile isReSpace)).bind fun r2 =>
        captureDigits (r2.dropWhile isReSpace)

/-- Pattern `ID:\s*(\d+)` anchored at the current position. -/
def matchIdColon (l : List Char) : Option (List Char) :=
  (stripPrefixCI "id:".data l).bind fun r =>
    captureDigits (r.dropWhile isReSpace)

/-- Pattern `#(\d+)` anchored at the current position. -/
def matchHashDigits : List Char → Option (List Char)
  | '#' :: r => captureDigits r
  | _ => none

/-- Model of `re.search`: try the anchored matcher at each position, leftmost first. -/
def reSearch (m : List Char → Option (List Char)) : List Char → Option (List Char)
  | [] => m []
  | c :: t =>
    match m (c :: t) with
    | some r => some r
    | none => reSearch m t

/-- Model of `GmailSlackMonitor.extract_record_id`: search the body with the four
patterns in order and return the first pattern's captured digits. -/
def extract_record_id (body : String) : Option String :=
  match reSearch matchRecordColon1 body.data with
  | some ds => some (String.mk ds)
  | none =>
  match reSearch matchRecordColon2 body.data with
  | some ds => some (String.mk ds)
  | none =>
  match reSearch matchIdColon body.data with
  | some ds => some (String.mk ds)
  | none =>
  match reSearch matchHashDigits body.data with
  | some ds => some (String.mk ds)
  | none => none

/-- The normalized message built by `get_message_details`. -/
structure MessageData where
  subject : String
  sender : String
  date : String
  body : String
  thread_id : String
  snippet : String
deriving DecidableEq

/-- Model of `GmailSlackMonitor.create_content_hash`: the `record_<id>` key when a
record id is extracted from the body, otherwise the digest of
`f"{subject}_{date}"`. The external `hashlib.md5(...).hexdigest()` is the
oracle parameter `md5hex`. -/
def create_content_hash (md5hex : String → String) (m : MessageData) : String :=
  match extract_record_id m.body with
  | some rid => "record_" ++ rid
  | none => md5hex (m.subject ++ "_" ++ m.date)

/-! ## The ledger: SQLite table `processed` with storage faults

The table is a key set (`id TEXT PRIMARY KEY`). `readFails`/`writeFails` are
fault oracles deciding whether a given `SELECT`/`INSERT` raises; the wrapper
functions below are the code's `try/except` bodies. -/

structure LedgerDB where
  keys : List String
  readFails : String → Bool
  writeFails : String → Bool

/-- Model of `SELECT id FROM processed WHERE id = ?`, as `result is not None`. -/
def dbSelect (db : LedgerDB) (k : String) : Except String Bool :=
  if db.readFails k then Except.error "database error"
  else Except.ok (db.keys.contains k)

/-- Model of `INSERT OR IGNORE INTO processed (id) VALUES (?)`. -/
def dbInsert (db : LedgerDB) (k : String) : Except String LedgerDB :=
  if db.writeFails k then Except.error "database error"
  else Except.ok
    { db with keys := if db.keys.contains k then db.keys else db.keys ++ [k] }

/-- Model of `GmailSlackMonitor.is_message_processed`: a storage failure is caught and
reported as `False` (fail-open). -/
def is_message_processed (db : LedgerDB) (message_id : String) : Bool :=
  match dbSelect db message_id with
  | Except.ok b => b
  | Except.error _ => false

/-- Model of `GmailSlackMonitor.mark_message_processed`: a storage failure is caught
and swallowed, leaving the ledger as it was. -/
def mark_message_processed (db : LedgerDB) (message_id : String) : LedgerDB :=
  match dbInsert db message_id with
  | Except.ok db2 => db2
  | Except.error _ => db

/-- Model of `GmailSlackMonitor.is_duplicate_by_content`: the content-hash lookup,
fail-open on storage failure. -/
def is_duplicate_by_content (md5hex : String → String) (db : LedgerDB)
    (m : MessageData) : Bool :=
  match dbSelect db (create_content_hash md5hex m) with
  | Except.ok b => b
  | Except.error _ => false

/-- Model of `GmailSlackMonitor.mark_content_processed`: the content-hash insert,
swallowed on storage failure. -/
def mark_content_processed (md5hex : String → String) (db : LedgerDB)
    (m : MessageData) : LedgerDB :=
  match dbInsert db (create_content_hash md5hex m) with
  | Except.ok db2 => db2
  | Except.error _ => db

/-! ## The notifier: `post_to_slack` -/

/-- A JSON value, keeping object entries in insertion order as Python dicts
and `requests`' serializer do. -/
inductive Json where
  | str (s : String) : Json
  | arr (elems : List Json) : Json
  | obj (entries : List (String × Json)) : Json

/-- The Gmail deep link built in `post_to_slack`. -/
def gmail_link (m : MessageData) : String :=
  "https://mail.google.com/mail/u/0/#inbox/" ++ m.thread_id

/-- The webhook payload built by `post_to_slack`: `text`, `channel`,
`username` and the `blocks` array, with the preview block appended only for a
truthy (non-empty) body and the actions block appended last. -/
def slack_payload (channel username gmail_query : String) (m : MessageData) :
    Json :=
  let blocks : List Json :=
    [Json.obj [("type", Json.str "header"),
       ("text", Json.obj [("type", Json.str "plain_text"),
         ("text", Json.str ("📧 " ++ m.subject))])],
     Json.obj [("type", Json.str "section"),
       ("fields", Json.arr
         [Json.obj [("type", Json.str "mrkdwn"),
            ("text", Json.str ("*From:*\n" ++ m.sender))],
          Json.obj [("type", Json.str "mrkdwn"),
            ("text", Json.str ("*Date:*\n" ++ m.date))]])],
     Json.obj [("type", Json.str "section"),
       ("text", Json.obj [("type", Json.str "mrkdwn"),
         ("text", Json.str ("*Query:* `" ++ gmail_query ++ "`"))])]]
  let blocks :=
    if m.body ≠ "" then
      blocks ++ [Json.obj [("type", Json.str "section"),
        ("text", Json.obj [("type", Json.str "mrkdwn"),
          ("text", Json.str ("*Preview:*\n```" ++ m.body ++ "```"))])]]
    else blocks
  let blocks := blocks ++
    [Json.obj [("type", Json.str "actions"),
      ("elements", Json.arr
        [Json.obj [("type", Json.str "button"),
          ("text", Json.obj [("type", Json.str "plain_text"),
            ("text", Json.str "Open in Gmail")]),
          ("url", Json.str (gmail_link m)),
          ("action_id", Json.str "open_gmail")]])]]
  Json.obj [("text", Json.str ("📧 New Email: " ++ m.subject)),
    ("channel", Json.str channel),
    ("username", Json.str username),
    ("blocks", Json.arr blocks)]

/-- Model of `GmailSlackMonitor.post_to_slack`: render the payload and POST it; the
external webhook is the oracle `http`, whose `Bool` result stands for
`response.status_code == 200` (an exception in `requests.post` behaves as a
`false` result: both paths return `False` without touching any state). -/
def post_to_slack (http : Json → Bool) (channel username gmail_query : String)
    (m : MessageData) : Bool :=
  http (slack_payload channel username gmail_query m)

/-! ## The poller: the per-message body of `poll_gmail`'s loop -/

/-- One iteration of `poll_gmail`'s `for message in messages` loop. Returns
the updated ledger and, when an HTTP POST to the sink was made for this
message, the id and data that were posted. `details` is the external
`get_message_details` (Gmail fetch), `none` standing for a failed fetch. -/
def poll_step (md5hex : String → String) (http : Json → Bool)
    (channel username gmail_query : String)
    (details : String → Option MessageData) (db : LedgerDB)
    (message_id : String) : LedgerDB × Option (String × MessageData) :=
  if is_message_processed db message_id then (db, none)
  else
    match details message_id with
    | none => (db, none)
    | some m =>
      if is_duplicate_by_content md5hex db m then (db, none)
      else if post_to_slack http channel username gmail_query m then
        (mark_content_processed md5hex
          (mark_message_processed db message_id) m, some (message_id, m))
      else (db, some (message_id, m))

/-- One poll cycle of `GmailSlackMonitor.poll_gmail` over the ids returned by
the search, collecting every sink POST that was attempted. -/
def poll_gmail (md5hex : String → String) (http : Json → Bool)
    (channel username gmail_query : String)
    (details : String → Option MessageData) (ids : List String)
    (db : LedgerDB) : LedgerDB × List (String × MessageData) :=
  match ids with
  | [] => (db, [])
  | message_id :: rest =>
    let step := poll_step md5hex http channel username gmail_query details db
      message_id
    let next := poll_gmail md5hex http channel username gmail_query details
      rest step.1
    (next.1, step.2.toList ++ next.2)

/-- Model of `clear_database.clear_database` (success path): count the rows, delete
them all, count again. Returns the cleared ledger and the two counts. -/
def clear_database (db : LedgerDB) : LedgerDB × Nat × Nat :=
  let cleared : LedgerDB := { db with keys := [] }
  (cleared, db.keys.length, cleared.keys.length)

/-! ## Codec round-trip lemmas -/

/-- Decoding a base64url character recovers its 6-bit value. -/
theorem b64Val_b64Char : ∀ n < 64, b64Val (b64Char n) = some n := by decide

/-- Alphabet characters are never the padding character. -/
theorem b64Char_ne_pad : ∀ n < 64, b64Char n ≠ '=' := by decide

/-- base64url decoding inverts base64url encoding on byte lists. -/
theorem b64urlDecode_b64urlEncode :
    ∀ l : List Nat, (∀ b ∈ l, b < 256) → b64urlDecode (b64urlEncode l) = some l := by
  intro l
  induction l using b64urlEncode.induct with
  | case1 => intro _; rfl
  | case2 b1 =>
    intro hb
    have h1 : b1 < 256 := hb b1 (by simp)
    simp only [b64urlEncode, b64urlDecode]
    rw [b64Val_b64Char (b1 / 4) (by omega), b64Val_b64Char (b1 % 4 * 16) (by omega)]
    simp
    all_goals omega
  | case3 b1 b2 =>
    intro hb
    have h1 : b1 < 256 := hb b1 (by simp)
    have h2 : b2 < 256 := hb b2 (by simp)
    simp only [b64urlEncode, b64urlDecode]
    have hp : b64Char (b2 % 16 * 4) ≠ '=' := b64Char_ne_pad _ (by omega)
    rw [b64Val_b64Char (b1 / 4) (by omega),
      b64Val_b64Char (b1 % 4 * 16 + b2 / 16) (by omega),
      b64Val_b64Char (b2 % 16 * 4) (by omega)]
    simp only [hp, if_false, if_true, List.cons.injEq, and_true, true_and]
    simp
    all_goals omega
  | case4 b1 b2 b3 rest ih =>
    intro hb
    have h1 : b1 < 256 := hb b1 (by simp)
    have h2 : b2 < 256 := hb b2 (by simp)
    have h3 : b3 < 256 := hb b3 (by simp)
    have hrest : ∀ b ∈ rest, b < 256 := fun b h => hb b (by simp [h])
    have hp3 : b64Char (b2 % 16 * 4 + b3 / 64) ≠ '=' := b64Char_ne_pad _ (by omega)
    have hp4 : b64Char (b3 % 64) ≠ '=' := b64Char_ne_pad _ (by omega)
    simp only [b64urlEncode, b64urlDecode]
    rw [b64Val_b64Char (b1 / 4) (by omega),
      b64Val_b64Char (b1 % 4 * 16 + b2 / 16) (by omega),
      b64Val_b64Char (b2 % 16 * 4 + b3 / 64) (by omega),
      b64Val_b64Char (b3 % 64) (by omega)]
    simp only [hp3, hp4, if_false, ih hrest, Option.map_some]
    simp
    all_goals omega

/-- UTF-8 encoded bytes are bytes. -/
theorem utf8EncodeScalar_lt (n : Nat) (hn : n < 0x110000) :
    ∀ b ∈ utf8EncodeScalar n, b < 256 := by
  intro b hb
  unfold utf8EncodeScalar at hb
  split at hb
  · simp at hb; omega
  · split at hb
    · simp at hb; rcases hb with h | h <;> omega
    · split at hb
      · simp at hb; rcases hb with h | h | h <;> omega
      · simp at hb; rcases hb with h | h | h | h <;> omega

/-- The shape of `utf8EncodeScalar` in each of its four ranges. -/
theorem utf8EncodeScalar_one (n : Nat) (h : n < 0x80) :
    utf8EncodeScalar n = [n] := by
  unfold utf8EncodeScalar; rw [if_pos h]

theorem utf8EncodeScalar_two (n : Nat) (h1 : ¬n < 0x80) (h2 : n < 0x800) :
    utf8EncodeScalar n = [0xC0 + n / 64, 0x80 + n % 64] := by
  unfold utf8EncodeScalar; rw [if_neg h1, if_pos h2]

theorem utf8EncodeScalar_three (n : Nat) (h1 : ¬n < 0x80) (h2 : ¬n < 0x800)
    (h3 : n < 0x10000) :
    utf8EncodeScalar n = [0xE0 + n / 4096, 0x80 + n / 64 % 64, 0x80 + n % 64] := by
  unfold utf8EncodeScalar; rw [if_neg h1, if_neg h2, if_pos h3]

theorem utf8EncodeScalar_four (n : Nat) (h1 : ¬n < 0x80) (h2 : ¬n < 0x800)
    (h3 : ¬n < 0x10000) :
    utf8EncodeScalar n = [0xF0 + n / 262144, 0x80 + n / 4096 % 64,
      0x80 + n / 64 % 64, 0x80 + n % 64] := by
  unfold utf8EncodeScalar; rw [if_neg h1, if_neg h2, if_neg h3]

/-- The step `utf8Step` inverts `utf8EncodeScalar` at the head of a byte stream. -/
theorem utf8Step_encode (n : Nat)
    (hv : n < 0xD800 ∨ (0xE000 ≤ n ∧ n < 0x110000)) (rest : List Nat) :
    utf8Step (utf8EncodeScalar n ++ rest) = some (n, rest) := by
  by_cases h1 : n < 0x80
  · rw [utf8EncodeScalar_one n h1, List.cons_append, List.nil_append]
    unfold utf8Step
    dsimp only
    rw [if_pos h1]
  · by_cases h2 : n < 0x800
    · rw [utf8EncodeScalar_two n h1 h2, List.cons_append, List.cons_append,
        List.nil_append]
      unfold utf8Step
      dsimp only
      split_ifs with ha hb hc hd
      all_goals try omega
      have e : (0xC0 + n / 64 - 0xC0) * 64 + (0x80 + n % 64 - 0x80) = n := by
        omega
      rw [e]
    · by_cases h3 : n < 0x10000
      · rw [utf8EncodeScalar_three n h1 h2 h3, List.cons_append,
          List.cons_append, List.cons_append, List.nil_append]
        unfold utf8Step
        dsimp only
        split_ifs with ha hb hc hd he
        all_goals try omega
        have e : (0xE0 + n / 4096 - 0xE0) * 4096 +
            (0x80 + n / 64 % 64 - 0x80) * 64 + (0x80 + n % 64 - 0x80) = n := by
          omega
        rw [e]
      · rw [utf8EncodeScalar_four n h1 h2 h3, List.cons_append,
          List.cons_append, List.cons_append, List.cons_append,
          List.nil_append]
        unfold utf8Step
        dsimp only
        split_ifs with ha hb hc hd he hf
        all_goals try omega
        have e : (0xF0 + n / 262144 - 0xF0) * 262144 +
            (0x80 + n / 4096 % 64 - 0x80) * 4096 +
            (0x80 + n / 64 % 64 - 0x80) * 64 + (0x80 + n % 64 - 0x80) = n := by
          omega
        rw [e]

/-- Decoding a UTF-8 encoded scalar at the head of a byte stream recovers the
scalar and continues with the remaining stream. -/
theorem utf8DecodeScalars_encode_cons (n : Nat)
    (hv : n < 0xD800 ∨ (0xE000 ≤ n ∧ n < 0x110000)) (rest : List Nat) :
    utf8DecodeScalars (utf8EncodeScalar n ++ rest) =
      (utf8DecodeScalars rest).map (n :: ·) :=
  utf8DecodeScalars_of_step _ n rest (utf8Step_encode n hv rest)

/-- Decoding the concatenated UTF-8 encodings of a character list recovers
the characters' scalar values. -/
theorem utf8DecodeScalars_nil : utf8DecodeScalars [] = some [] := rfl

theorem utf8DecodeScalars_encodeChars (l : List Char) :
    utf8DecodeScalars ((l.map (fun c => utf8EncodeScalar c.toNat)).foldr
      (· ++ ·) []) = some (l.map Char.toNat) := by
  induction l with
  | nil => exact utf8DecodeScalars_nil
  | cons c t ih =>
    have hv : c.toNat < 0xD800 ∨ (0xE000 ≤ c.toNat ∧ c.toNat < 0x110000) :=
      c.valid
    simp only [List.map_cons, List.foldr_cons]
    rw [utf8DecodeScalars_encode_cons c.toNat hv, ih]
    rfl

/-- UTF-8 decoding inverts UTF-8 encoding: Python's
`s.encode('utf-8').decode('utf-8') == s`. -/
theorem utf8Decode_utf8Encode (s : String) : utf8Decode (utf8Encode s) = some s := by
  obtain ⟨l⟩ := s
  simp only [utf8Decode, utf8Encode, utf8DecodeScalars_encodeChars,
    Option.map_some', Option.some.injEq]
  simp only [List.map_map]
  have : (Char.ofNat ∘ Char.toNat) = id := by
    funext c
    exact Char.ofNat_toNat c
  rw [this, List.map_id]

/-- Encoded UTF-8 strings are byte lists. -/
theorem utf8Encode_lt (s : String) : ∀ b ∈ utf8Encode s, b < 256 := by
  obtain ⟨l⟩ := s
  induction l with
  | nil => intro b hb; simp [utf8Encode] at hb
  | cons c t ih =>
    intro b hb
    simp only [utf8Encode, List.map_cons, List.foldr_cons, List.mem_append] at hb
    rcases hb with hb | hb
    · have hv : c.toNat < 0xD800 ∨ (0xE000 ≤ c.toNat ∧ c.toNat < 0x110000) :=
        c.valid
      exact utf8EncodeScalar_lt c.toNat (by omega) b hb
    · exact ih b hb

/-- The full transport round trip: base64url-decoding then UTF-8-decoding an
`encodeData`-produced value recovers the original string. -/
theorem decodeData_encodeData (s : String) : decodeData (encodeData s) = some s := by
  unfold decodeData encodeData
  rw [b64urlDecode_b64urlEncode (utf8Encode s) (utf8Encode_lt s)]
  rw [Option.some_bind]
  exact utf8Decode_utf8Encode s

/-! ## Ledger lemmas -/

/-- A fail-free lookup reports exactly list membership. -/
theorem is_message_processed_eq (db : LedgerDB) (k : String)
    (hread : db.readFails k = false) :
    is_message_processed db k = db.keys.contains k := by
  simp [is_message_processed, dbSelect, hread]

/-- Marking a message preserves every key already present. -/
theorem mark_message_keys_mono (db : LedgerDB) (id k : String)
    (h : k ∈ db.keys) : k ∈ (mark_message_processed db id).keys := by
  unfold mark_message_processed dbInsert
  split_ifs with h1 h2
  · exact h
  · exact h
  · exact List.mem_append_left _ h

/-- Marking content preserves every key already present. -/
theorem mark_content_keys_mono (md5hex : String → String) (db : LedgerDB)
    (m : MessageData) (k : String) (h : k ∈ db.keys) :
    k ∈ (mark_content_processed md5hex db m).keys := by
  unfold mark_content_processed dbInsert
  split_ifs with h1 h2
  · exact h
  · exact h
  · exact List.mem_append_left _ h

/-- Marking a message never changes the fault oracles. -/
theorem mark_message_readFails (db : LedgerDB) (id : String) :
    (mark_message_processed db id).readFails = db.readFails := by
  unfold mark_message_processed dbInsert
  split_ifs <;> rfl

theorem mark_message_writeFails (db : LedgerDB) (id : String) :
    (mark_message_processed db id).writeFails = db.writeFails := by
  unfold mark_message_processed dbInsert
  split_ifs <;> rfl

theorem mark_content_readFails (md5hex : String → String) (db : LedgerDB)
    (m : MessageData) :
    (mark_content_processed md5hex db m).readFails = db.readFails := by
  unfold mark_content_processed dbInsert
  split_ifs <;> rfl

theorem mark_content_writeFails (md5hex : String → String) (db : LedgerDB)
    (m : MessageData) :
    (mark_content_processed md5hex db m).writeFails = db.writeFails := by
  unfold mark_content_processed dbInsert
  split_ifs <;> rfl

/-- A fail-free insert makes the key present. -/
theorem mark_message_keys_mem (db : LedgerDB) (id : String)
    (hw : db.writeFails id = false) :
    id ∈ (mark_message_processed db id).keys := by
  unfold mark_message_processed dbInsert
  rw [hw]
  by_cases h : db.keys.contains id
  · simp only [if_false, Bool.false_eq_true, h, if_true]
    exact List.mem_of_elem_eq_true h
  · simp only [if_false, Bool.false_eq_true, h, Bool.false_eq_true]
    simp

theorem mark_content_keys_mem (md5hex : String → String) (db : LedgerDB)
    (m : MessageData) (hw : db.writeFails (create_content_hash md5hex m) = false) :
    create_content_hash md5hex m ∈ (mark_content_processed md5hex db m).keys := by
  unfold mark_content_processed dbInsert
  rw [hw]
  by_cases h : db.keys.contains (create_content_hash md5hex m)
  · simp only [if_false, Bool.false_eq_true, h, if_true]
    exact List.mem_of_elem_eq_true h
  · simp only [if_false, Bool.false_eq_true, h, Bool.false_eq_true]
    simp

/-! ## Poller lemmas -/

section PollLemmas

variable (md5hex : String → String) (http : Json → Bool)
variable (channel username gmail_query : String)
variable (details : String → Option MessageData)

/-- One poll iteration preserves every key already in the ledger. -/
theorem poll_step_keys_mono (db : LedgerDB) (id k : String) (h : k ∈ db.keys) :
    k ∈ (poll_step md5hex http channel username gmail_query details db id).1.keys := by
  unfold poll_step
  by_cases h1 : is_message_processed db id = true
  · rw [if_pos h1]; exact h
  · rw [if_neg h1]
    cases hd : details id with
    | none => exact h
    | some m =>
      dsimp only
      by_cases h2 : is_duplicate_by_content md5hex db m = true
      · rw [if_pos h2]; exact h
      · rw [if_neg h2]
        by_cases h3 :
            post_to_slack http channel username gmail_query m = true
        · rw [if_pos h3]
          exact mark_content_keys_mono md5hex _ m k
            (mark_message_keys_mono db id k h)
        · rw [if_neg h3]; exact h

/-- One poll iteration never changes the fault oracles. -/
theorem poll_step_readFails (db : LedgerDB) (id : String) :
    (poll_step md5hex http channel username gmail_query details db id).1.readFails =
      db.readFails := by
  unfold poll_step
  by_cases h1 : is_message_processed db id = true
  · rw [if_pos h1]
  · rw [if_neg h1]
    cases hd : details id with
    | none => rfl
    | some m =>
      dsimp only
      by_cases h2 : is_duplicate_by_content md5hex db m = true
      · rw [if_pos h2]
      · rw [if_neg h2]
        by_cases h3 :
            post_to_slack http channel username gmail_query m = true
        · rw [if_pos h3]
          rw [mark_content_readFails, mark_message_readFails]
        · rw [if_neg h3]

/-- A poll iteration only ever posts under the id it is processing. -/
theorem poll_step_post_id (db : LedgerDB) (id y : String) (m : MessageData)
    (h : (poll_step md5hex http channel username gmail_query details db id).2 =
      some (y, m)) : y = id := by
  unfold poll_step at h
  by_cases h1 : is_message_processed db id = true
  · rw [if_pos h1] at h; cases h
  · rw [if_neg h1] at h
    cases hd : details id with
    | none => rw [hd] at h; cases h
    | some m2 =>
      rw [hd] at h
      dsimp only at h
      by_cases h2 : is_duplicate_by_content md5hex db m2 = true
      · rw [if_pos h2] at h; cases h
      · rw [if_neg h2] at h
        by_cases h3 :
            post_to_slack http channel username gmail_query m2 = true
        · rw [if_pos h3] at h
          injection h with h4
          injection h4 with h5 _
          exact h5.symm
        · rw [if_neg h3] at h
          injection h with h4
          injection h4 with h5 _
          exact h5.symm

/-- A message whose raw id is already in the ledger is skipped outright
(provided the lookup does not hit a storage fault). -/
theorem poll_step_skip_mem (db : LedgerDB) (x : String) (hmem : x ∈ db.keys)
    (hread : db.readFails x = false) :
    poll_step md5hex http channel username gmail_query details db x =
      (db, none) := by
  unfold poll_step
  rw [if_pos]
  rw [is_message_processed_eq db x hread]
  exact List.elem_eq_true_of_mem hmem

/-- A poll cycle preserves every key already in the ledger. -/
theorem poll_gmail_keys_mono (ids : List String) :
    ∀ (db : LedgerDB) (k : String), k ∈ db.keys →
      k ∈ (poll_gmail md5hex http channel username gmail_query details ids db).1.keys := by
  induction ids with
  | nil => intro db k h; exact h
  | cons id rest ih =>
    intro db k h
    simp only [poll_gmail]
    exact ih _ k (poll_step_keys_mono md5hex http channel username gmail_query
      details db id k h)

/-- A poll cycle never changes the fault oracles. -/
theorem poll_gmail_readFails (ids : List String) :
    ∀ db : LedgerDB,
      (poll_gmail md5hex http channel username gmail_query details ids db).1.readFails =
        db.readFails := by
  induction ids with
  | nil => intro db; rfl
  | cons id rest ih =>
    intro db
    simp only [poll_gmail]
    rw [ih, poll_step_readFails]

/-- A poll cycle never posts for an id that is already in the ledger when the
cycle starts (and whose lookups do not hit a storage fault). -/
theorem poll_gmail_no_post (x : String) (ids : List String) :
    ∀ db : LedgerDB, x ∈ db.keys → db.readFails x = false →
      ∀ m : MessageData,
        (x, m) ∉ (poll_gmail md5hex http channel username gmail_query details ids db).2 := by
  induction ids with
  | nil => intro db _ _ m h; simp [poll_gmail] at h
  | cons id rest ih =>
    intro db hmem hread m
    simp only [poll_gmail, List.mem_append, not_or]
    constructor
    · by_cases hid : id = x
      · subst hid
        rw [poll_step_skip_mem md5hex http channel username gmail_query details
          db id hmem hread]
        simp
      · intro hc
        rcases hp : (poll_step md5hex http channel username gmail_query details
            db id).2 with - | ⟨y, m2⟩
        · rw [hp] at hc; simp [Option.toList] at hc
        · rw [hp] at hc
          simp [Option.toList] at hc
          obtain ⟨h1, -⟩ := hc
          have hy : y = id := poll_step_post_id md5hex http channel username
            gmail_query details db id y m2 hp
          exact hid (hy ▸ h1).symm
    · exact ih _
        (poll_step_keys_mono md5hex http channel username gmail_query details
          db id x hmem)
        ((poll_step_readFails md5hex http channel username gmail_query details
          db id).symm ▸ hread) m

end PollLemmas

/-- The content hash only depends on a message's body, subject and date. -/
theorem create_content_hash_congr (md5hex : String → String)
    (m m' : MessageData) (hs : m'.subject = m.subject) (hd : m'.date = m.date)
    (hb : m'.body = m.body) :
    create_content_hash md5hex m' = create_content_hash md5hex m := by
  unfold create_content_hash
  rw [hb, hs, hd]

/-! ## Sample data used by the concrete witnesses -/

/-- A ledger with no keys and a storage backend that never faults. -/
def cleanDB : LedgerDB := ⟨[], fun _ => false, fun _ => false⟩

/-- A ledger whose storage backend faults on every access. -/
def faultyDB : LedgerDB := ⟨["k0"], fun _ => true, fun _ => true⟩

/-- A stand-in digest oracle for `hashlib.md5(...).hexdigest()`. -/
def sampleMd5 (s : String) : String := "d(" ++ s ++ ")"

/-- A sink that accepts every payload with status 200. -/
def sinkOk : Json → Bool := fun _ => true

/-- A sink that rejects every payload. -/
def sinkDown : Json → Bool := fun _ => false

/-- The message behind id `A` in the spec's scenario: its body carries
`Record ID: 7`. -/
def sampleMsgA : MessageData :=
  ⟨"A Client Has Cancelled - 7", "noreply@forthcrm.com",
    "2025-09-16 10:00:00 UTC", "A client has been cancelled. Record ID: 7",
    "thread_7", "snippet A"⟩

/-- The message behind id `B`: no recognizable record-identifier pattern. -/
def sampleMsgB : MessageData :=
  ⟨"A Client Has Cancelled", "noreply@forthcrm.com",
    "2025-09-17 11:00:00 UTC", "a client has been cancelled without details",
    "thread_b", "snippet B"⟩

/-- The fetch oracle returning the two sample messages. -/
def sampleDetails : String → Option MessageData := fun id =>
  if id = "A" then some sampleMsgA
  else if id = "B" then some sampleMsgB
  else none

/-! ## The claims -/

/-- Claim C6 — Ledger failure policy is fail-open on read and swallowed on
write: a storage fault during the `contains` check makes `is_message_processed`
(and `is_duplicate_by_content`) report `false` (not present), and a storage
fault during the insert makes `mark_message_processed` (and
`mark_content_processed`) leave the ledger unchanged; all four wrappers return
plain values, never a propagating exception. -/
theorem ledger_fail_open_read_swallowed_write
    (db : LedgerDB) (k : String) (md5hex : String → String) (m : MessageData) :
    (db.readFails k = true → is_message_processed db k = false) ∧
    (db.writeFails k = true → mark_message_processed db k = db) ∧
    (db.readFails (create_content_hash md5hex m) = true →
      is_duplicate_by_content md5hex db m = false) ∧
    (db.writeFails (create_content_hash md5hex m) = true →
      mark_content_processed md5hex db m = db) := by
  refine ⟨fun h => ?_, fun h => ?_, fun h => ?_, fun h => ?_⟩
  · simp [is_message_processed, dbSelect, h]
  · simp [mark_message_processed, dbInsert, h]
  · simp [is_duplicate_by_content, dbSelect, h]
  · simp [mark_content_processed, dbInsert, h]

/-- Witness for C6 at a concrete always-faulting store. -/
theorem ledger_fail_open_read_swallowed_write_witness :
    is_message_processed faultyDB "A" = false ∧
    mark_message_processed faultyDB "A" = faultyDB ∧
    is_duplicate_by_content sampleMd5 faultyDB sampleMsgB = false ∧
    mark_content_processed sampleMd5 faultyDB sampleMsgB = faultyDB := by
  obtain ⟨h1, h2, h3, h4⟩ :=
    ledger_fail_open_read_swallowed_write faultyDB "A" sampleMd5 sampleMsgB
  exact ⟨h1 rfl, h2 rfl, h3 rfl, h4 rfl⟩

/-- Claim C8 — Fallback content identity: a message whose body matches none of
the record-id patterns gets the deterministic digest of
`subject ++ "_" ++ date` as its dedup key, so two such messages with equal
subject and date get the same content key, whatever their raw ids are. -/
theorem fallback_content_identity (md5hex : String → String)
    (m m' : MessageData)
    (h1 : extract_record_id m.body = none)
    (h2 : extract_record_id m'.body = none)
    (hs : m'.subject = m.subject) (hd : m'.date = m.date) :
    create_content_hash md5hex m = md5hex (m.subject ++ "_" ++ m.date) ∧
    create_content_hash md5hex m' = create_content_hash md5hex m := by
  constructor
  · unfold create_content_hash
    rw [h1]
  · unfold create_content_hash
    rw [h1, h2, hs, hd]

/-- Witness for C8: two concrete pattern-free messages that differ in raw id,
sender, body wording and thread, but share subject and date. -/
theorem fallback_content_identity_witness :
    create_content_hash sampleMd5 sampleMsgB =
      sampleMd5 ("A Client Has Cancelled" ++ "_" ++ "2025-09-17 11:00:00 UTC") ∧
    create_content_hash sampleMd5
      ⟨"A Client Has Cancelled", "other@forthcrm.com",
        "2025-09-17 11:00:00 UTC", "no structured fields at all",
        "thread_x", "snippet X"⟩ = create_content_hash sampleMd5 sampleMsgB :=
  fallback_content_identity sampleMd5 sampleMsgB _
    (by decide) (by decide) rfl rfl

/-- Claim C9 — Ledger monotonicity: a key once present is preserved by both
commit operations and by a whole poll cycle (the dedup checks do not touch the
store at all); the only key-removing operation is the administrative
`clear_database` reset, which empties the entire set (its post-reset row count
is 0 and its pre-reset count is the full key count). -/
theorem ledger_monotone_reset_only
    (md5hex : String → String) (http : Json → Bool)
    (channel username gmail_query : String)
    (details : String → Option MessageData)
    (ids : List String) (db db2 : LedgerDB) (k id : String) (m : MessageData) :
    (k ∈ db.keys → k ∈ (mark_message_processed db id).keys) ∧
    (k ∈ db.keys → k ∈ (mark_content_processed md5hex db m).keys) ∧
    (k ∈ db.keys →
      k ∈ (poll_gmail md5hex http channel username gmail_query details ids db).1.keys) ∧
    (clear_database db2).1.keys = [] ∧
    (clear_database db2).2.1 = db2.keys.length ∧
    (clear_database db2).2.2 = 0 := by
  refine ⟨fun h => mark_message_keys_mono db id k h,
    fun h => mark_content_keys_mono md5hex db m k h,
    fun h => poll_gmail_keys_mono md5hex http channel username gmail_query
      details ids db k h, rfl, rfl, rfl⟩

/-- Witness for C9 at a concrete store holding key `k0`. -/
theorem ledger_monotone_reset_only_witness :
    "k0" ∈ (mark_message_processed ⟨["k0"], fun _ => false, fun _ => false⟩ "A").keys ∧
    "k0" ∈ (mark_content_processed sampleMd5
      ⟨["k0"], fun _ => false, fun _ => false⟩ sampleMsgA).keys ∧
    "k0" ∈ (poll_gmail sampleMd5 sinkOk "#forth-alerts" "Gmail Monitor" "q"
      sampleDetails ["A", "B"] ⟨["k0"], fun _ => false, fun _ => false⟩).1.keys ∧
    (clear_database ⟨["k0"], fun _ => false, fun _ => false⟩).1.keys = [] ∧
    (clear_database ⟨["k0"], fun _ => false, fun _ => false⟩).2.1 = 1 ∧
    (clear_database ⟨["k0"], fun _ => false, fun _ => false⟩).2.2 = 0 := by
  obtain ⟨h1, h2, h3, h4, h5, h6⟩ :=
    ledger_monotone_reset_only sampleMd5 sinkOk "#forth-alerts" "Gmail Monitor"
      "q" sampleDetails ["A", "B"] ⟨["k0"], fun _ => false, fun _ => false⟩
      ⟨["k0"], fun _ => false, fun _ => false⟩ "k0" "A" sampleMsgA
  exact ⟨h1 (by decide), h2 (by decide), h3 (by decide), h4, h5, h6⟩

/-- Claim C10 — Content-key round trip: `is_duplicate_by_content` and
`mark_content_processed` compute the key with the same `create_content_hash`,
so after a fault-free commit of `m`, the duplicate check answers `true` for
any `m'` agreeing with `m` on subject, date and body, provided the subsequent
read is fault-free too. -/
theorem content_key_roundtrip (md5hex : String → String) (db : LedgerDB)
    (m m' : MessageData)
    (hs : m'.subject = m.subject) (hd : m'.date = m.date) (hb : m'.body = m.body)
    (hw : db.writeFails (create_content_hash md5hex m) = false)
    (hr : db.readFails (create_content_hash md5hex m') = false) :
    is_duplicate_by_content md5hex (mark_content_processed md5hex db m) m' =
      true := by
  have hcongr := create_content_hash_congr md5hex m m' hs hd hb
  unfold is_duplicate_by_content dbSelect
  rw [mark_content_readFails, hcongr]
  rw [hcongr] at hr
  rw [hr]
  have hmem := mark_content_keys_mem md5hex db m hw
  simp only [Bool.false_eq_true, if_false]
  exact List.elem_eq_true_of_mem hmem

/-- Witness for C10: mark a concrete message, then check a copy of it that
differs only in raw-id-irrelevant fields. -/
theorem content_key_roundtrip_witness :
    is_duplicate_by_content sampleMd5
      (mark_content_processed sampleMd5 cleanDB sampleMsgA)
      ⟨"A Client Has Cancelled - 7", "someone@else.com",
        "2025-09-16 10:00:00 UTC", "A client has been cancelled. Record ID: 7",
        "thread_99", "other snippet"⟩ = true :=
  content_key_roundtrip sampleMd5 cleanDB sampleMsgA _ rfl rfl rfl rfl rfl

/-- Claim C1 — At-most-once delivery per raw message id: once a poll cycle has
committed id `x` to the ledger (which `poll_gmail` does exactly on a delivery
the sink accepted), the next cycle — over any search results, including ones
listing `x` again — makes no sink POST for `x`, and `x` stays committed with
the fault oracle untouched, so the same argument applies to every later cycle:
the pipeline delivers at most one notification for `x`. (The single caveat,
faithful to the fail-open ledger reads, is that the lookups on `x` must not
hit a storage fault.) -/
theorem raw_id_at_most_once
    (md5hex : String → String) (http : Json → Bool)
    (channel username gmail_query : String)
    (details : String → Option MessageData)
    (db : LedgerDB) (ids1 ids2 : List String) (x : String) (m : MessageData)
    (hread : db.readFails x = false)
    (hcommit : x ∈
      (poll_gmail md5hex http channel username gmail_query details ids1 db).1.keys) :
    (x, m) ∉
      (poll_gmail md5hex http channel username gmail_query details ids2
        (poll_gmail md5hex http channel username gmail_query details ids1 db).1).2 ∧
    x ∈ (poll_gmail md5hex http channel username gmail_query details ids2
        (poll_gmail md5hex http channel username gmail_query details ids1 db).1).1.keys := by
  have hread1 : (poll_gmail md5hex http channel username gmail_query details
      ids1 db).1.readFails x = false := by
    rw [poll_gmail_readFails]
    exact hread
  exact ⟨poll_gmail_no_post md5hex http channel username gmail_query details x
      ids2 _ hcommit hread1 m,
    poll_gmail_keys_mono md5hex http channel username gmail_query details ids2
      _ x hcommit⟩

/-- Witness for C1: the spec's scenario. The first cycle over `[A, B]` on an
empty fault-free ledger delivers and commits `A` (and `record_7`); the second
cycle over `[A, B]` again posts nothing for `A`. -/
theorem raw_id_at_most_once_witness :
    ("A", sampleMsgA) ∉
      (poll_gmail sampleMd5 sinkOk "#forth-alerts" "Gmail Monitor" "q"
        sampleDetails ["A", "B"]
        (poll_gmail sampleMd5 sinkOk "#forth-alerts" "Gmail Monitor" "q"
          sampleDetails ["A", "B"] cleanDB).1).2 ∧
    "A" ∈ (poll_gmail sampleMd5 sinkOk "#forth-alerts" "Gmail Monitor" "q"
        sampleDetails ["A", "B"]
        (poll_gmail sampleMd5 sinkOk "#forth-alerts" "Gmail Monitor" "q"
          sampleDetails ["A", "B"] cleanDB).1).1.keys :=
  raw_id_at_most_once sampleMd5 sinkOk "#forth-alerts" "Gmail Monitor" "q"
    sampleDetails cleanDB ["A", "B"] ["A", "B"] "A" sampleMsgA rfl (by decide)

/-- Claim C3 — Commit happens only on delivery success and covers both keys:
for a candidate that reaches the delivery step (raw id unseen, fetch
succeeded, content key unseen), a rejected delivery leaves the ledger exactly
as it was while still recording the attempted POST — so the identical
candidate is attempted again next cycle — whereas an accepted delivery (with
fault-free writes) commits both the raw id and the content key. -/
theorem commit_only_on_delivery_success
    (md5hex : String → String) (http : Json → Bool)
    (channel username gmail_query : String)
    (details : String → Option MessageData)
    (db : LedgerDB) (id : String) (m : MessageData)
    (hproc : is_message_processed db id = false)
    (hdet : details id = some m)
    (hdup : is_duplicate_by_content md5hex db m = false) :
    (post_to_slack http channel username gmail_query m = false →
      poll_step md5hex http channel username gmail_query details db id =
        (db, some (id, m))) ∧
    (post_to_slack http channel username gmail_query m = true →
      db.writeFails id = false →
      db.writeFails (create_content_hash md5hex m) = false →
      id ∈ (poll_step md5hex http channel username gmail_query details db id).1.keys ∧
      create_content_hash md5hex m ∈
        (poll_step md5hex http channel username gmail_query details db id).1.keys ∧
      (poll_step md5hex http channel username gmail_query details db id).2 =
        some (id, m)) := by
  constructor
  · intro hpost
    unfold poll_step
    rw [if_neg (by simp [hproc]), hdet]
    dsimp only
    rw [if_neg (by simp [hdup]), if_neg (by simp [hpost])]
  · intro hpost hw1 hw2
    unfold poll_step
    rw [if_neg (by simp [hproc]), hdet]
    dsimp only
    rw [if_neg (by simp [hdup]), if_pos hpost]
    refine ⟨?_, ?_, rfl⟩
    · exact mark_content_keys_mono md5hex _ m id
        (mark_message_keys_mem db id hw1)
    · exact mark_content_keys_mem md5hex _ m
        ((mark_message_writeFails db id).symm ▸ hw2)

/-- Witness for C3: the sink rejects `A`'s notification, so the poll step
returns the untouched empty ledger together with the attempted POST; rerun
against an accepting sink from the same state, it commits both `A` and
`record_7`. -/
theorem commit_only_on_delivery_success_witness :
    poll_step sampleMd5 sinkDown "#forth-alerts" "Gmail Monitor" "q"
      sampleDetails cleanDB "A" = (cleanDB, some ("A", sampleMsgA)) ∧
    "A" ∈ (poll_step sampleMd5 sinkOk "#forth-alerts" "Gmail Monitor" "q"
      sampleDetails cleanDB "A").1.keys ∧
    "record_7" ∈ (poll_step sampleMd5 sinkOk "#forth-alerts" "Gmail Monitor" "q"
      sampleDetails cleanDB "A").1.keys ∧
    (poll_step sampleMd5 sinkOk "#forth-alerts" "Gmail Monitor" "q"
      sampleDetails cleanDB "A").2 = some ("A", sampleMsgA) := by
  have hfail := (commit_only_on_delivery_success sampleMd5 sinkDown
    "#forth-alerts" "Gmail Monitor" "q" sampleDetails cleanDB "A" sampleMsgA
    (by decide) (by decide) (by decide)).1 rfl
  have hok := (commit_only_on_delivery_success sampleMd5 sinkOk
    "#forth-alerts" "Gmail Monitor" "q" sampleDetails cleanDB "A" sampleMsgA
    (by decide) (by decide) (by decide)).2 rfl rfl rfl
  obtain ⟨h1, h2, h3⟩ := hok
  refine ⟨hfail, h1, ?_, h3⟩
  have : create_content_hash sampleMd5 sampleMsgA = "record_7" := by decide
  rw [← this]
  exact h2

/-- Counterexample to C2 as quantified: this body contains `Record ID: 42`
before `#99`, yet extraction returns `7` — the *leftmost* occurrence matching
the first pattern — not `42`. -/
theorem record_extraction_counterexample :
    "Record ID: 7 " ++ "Record ID: 42" ++ " see " ++ "#99" ++ "" =
      "Record ID: 7 Record ID: 42 see #99" ∧
    extract_record_id "Record ID: 7 Record ID: 42 see #99" = some "7" ∧
    extract_record_id "Record ID: 7 Record ID: 42 see #99" ≠ some "42" := by
  refine ⟨rfl, by decide, by decide⟩

/-- Claim C2, amended — Record-id extraction is first-match-wins over the
ordered pattern list: whenever the leftmost `re.search` match of the first
pattern `Record ID:\s*(\d+)` captures digits `ds` (in particular `42` in the
spec's body `"Record ID: 42 ... #99"`), the extracted record id is exactly
`ds` and the dedup key is `record_<ds>` — later, more permissive patterns
such as `#(\d+)` never override it, so `#99` cannot win. -/
theorem record_extraction_first_pattern_wins (body : String) (ds : List Char)
    (h : reSearch matchRecordColon1 body.data = some ds)
    (md5hex : String → String)
    (subject sender date thread_id snippet : String) :
    extract_record_id body = some (String.mk ds) ∧
    create_content_hash md5hex
      ⟨subject, sender, date, body, thread_id, snippet⟩ =
      "record_" ++ String.mk ds := by
  have h1 : extract_record_id body = some (String.mk ds) := by
    unfold extract_record_id
    rw [h]
  refine ⟨h1, ?_⟩
  unfold create_content_hash
  dsimp only
  rw [h1]

/-- Witness for the amended C2 at the spec's own example body. -/
theorem record_extraction_first_pattern_wins_witness :
    extract_record_id "Record ID: 42 please check #99" = some "42" ∧
    create_content_hash sampleMd5
      ⟨"s", "f", "d", "Record ID: 42 please check #99", "t", "sn"⟩ =
      "record_42" := by
  have h := record_extraction_first_pattern_wins
    "Record ID: 42 please check #99" ['4', '2'] (by decide) sampleMd5
    "s" "f" "d" "t" "sn"
  exact h

/-- Encoding a scalar always produces at least one byte. -/
theorem utf8EncodeScalar_ne_nil (n : Nat) : utf8EncodeScalar n ≠ [] := by
  unfold utf8EncodeScalar
  split_ifs <;> simp

/-- Encoding a non-empty string produces at least one byte. -/
theorem utf8Encode_ne_nil (s : String) (h : s ≠ "") : utf8Encode s ≠ [] := by
  obtain ⟨l⟩ := s
  match l with
  | [] => exact absurd rfl h
  | c :: t =>
    simp only [utf8Encode, List.map_cons, List.foldr_cons, ne_eq,
      List.append_eq_nil]
    intro hc
    exact utf8EncodeScalar_ne_nil c.toNat hc.1

/-- Encoding a non-empty byte list produces at least one character. -/
theorem b64urlEncode_ne_nil (l : List Nat) (h : l ≠ []) :
    b64urlEncode l ≠ [] := by
  match l with
  | [] => exact absurd rfl h
  | [b1] => simp [b64urlEncode]
  | [b1, b2] => simp [b64urlEncode]
  | b1 :: b2 :: b3 :: rest => simp [b64urlEncode]

/-- The transport form of a non-empty string is non-empty. -/
theorem encodeData_ne_nil (s : String) (h : s ≠ "") : encodeData s ≠ [] :=
  b64urlEncode_ne_nil _ (utf8Encode_ne_nil s h)

/-- The HTML part used in the body-decoder examples, listed *before* its
plain sibling. -/
def htmlPart : Payload := .node "text/html" (encodeData "<p>Hello</p>") [] ""

/-- The plain part listed after the HTML part. -/
def plainPart : Payload := .node "text/plain" (encodeData "PlainText") [] ""

/-- Counterexample to C4 as stated: in a multipart tree whose HTML part
precedes its plain-text sibling, the decoder returns the stripped HTML text,
not the plain text — there is no plain-over-HTML preference among siblings,
only first-non-empty in part order. -/
theorem body_decoder_counterexample :
    extract_message_body
      (.node "multipart/alternative" [] [htmlPart, plainPart] "snip") =
      "Hello" ∧
    extract_from_part plainPart = "PlainText" ∧
    ("Hello" : String) ≠ "PlainText" := by
  refine ⟨by decide, by decide, by decide⟩

/-- Claim C4, amended — Body decoder part order: among the parts of a
composite node the decoder returns the result of the first part (in tree
order) that yields non-empty text, whatever its media type — an HTML part
that precedes a plain sibling and strips to non-empty text wins; a top-level
non-empty plain-text part decodes to exactly its original UTF-8 text; HTML is
accepted with every `<...>` tag stripped (`"<p>Hi <b>Bob</b></p>"` becomes
`"Hi Bob"`). -/
theorem body_decoder_tree_order (mt : String) (data : List Char) (p : Payload)
    (ps : List Payload) (snip s : String)
    (hmt1 : mt ≠ "text/plain") (hmt2 : mt ≠ "text/html")
    (hp : extract_from_part p ≠ "") (hs : s ≠ "") :
    extract_message_body (.node mt data (p :: ps) snip) = extract_from_part p ∧
    extract_message_body (.node "text/plain" (encodeData s) [] snip) = s ∧
    stripTags "<p>Hi <b>Bob</b></p>" = "Hi Bob" := by
  refine ⟨?_, ?_, by decide⟩
  · have hparts : extract_from_parts (p :: ps) = extract_from_part p := by
      unfold extract_from_parts
      rw [if_pos hp]
    unfold extract_message_body
    dsimp only
    rw [if_neg hmt1, if_neg hmt2]
    rw [hparts, if_neg hp]
  · unfold extract_message_body
    dsimp only
    rw [if_pos rfl]
    rw [if_pos (encodeData_ne_nil s hs), decodeData_encodeData]

/-- Witness for the amended C4 on the concrete two-part tree. -/
theorem body_decoder_tree_order_witness :
    extract_message_body
      (.node "multipart/related" [] [htmlPart, plainPart] "snip") = "Hello" ∧
    extract_message_body
      (.node "text/plain" (encodeData "Exact body") [] "snip") = "Exact body" ∧
    stripTags "<p>Hi <b>Bob</b></p>" = "Hi Bob" := by
  obtain ⟨h1, h2, h3⟩ := body_decoder_tree_order "multipart/related" []
    htmlPart [plainPart] "snip" "Exact body" (by decide) (by decide)
    (by decide) (by decide)
  refine ⟨?_, h2, h3⟩
  rw [h1]
  decide

/-- Counterexample to C5 as stated: a top-level HTML node whose markup strips
to the empty string. No textual content is found anywhere (the search result
is empty), yet the decoder returns `""` — the direct-return branch — and not
the provider snippet. -/
theorem snippet_fallback_counterexample :
    found_body_text (.node "text/html" (encodeData "<br>") [] "snip") = "" ∧
    extract_message_body (.node "text/html" (encodeData "<br>") [] "snip") =
      "" ∧
    ("" : String) ≠ "snip" := by
  refine ⟨by decide, by decide, by decide⟩

/-- A part whose data does not base64url-and-UTF-8 decode. -/
def badPlain : Payload := .node "text/plain" "a".data [] ""

/-- Claim C5, amended — Body decoder totality and snippet fallback: the
decoder is a total function into strings; a part whose decoding fails yields
`""` and an empty-yielding part is skipped so the search continues with its
siblings; a composite node falls back to the payload's snippet entry exactly
when the part search yields nothing; a top-level plain or HTML node returns
the snippet on decode failure, and on success returns its decoded (for HTML,
tag-stripped) text directly — in particular any non-empty decoded text wins
over the snippet, and the one deviation from the original claim is that a
top-level direct return may be `""` rather than the snippet when the decoded
text strips to nothing. -/
theorem body_decoder_totality_snippet (mt : String) (d1 d2 : List Char)
    (t : String) (p : Payload) (ps parts : List Payload) (sn snip : String)
    (hmt1 : mt ≠ "text/plain") (hmt2 : mt ≠ "text/html") :
    (decodeData d1 = none →
      extract_from_part (.node "text/plain" d1 parts sn) = "" ∧
      extract_from_part (.node "text/html" d1 parts sn) = "" ∧
      extract_message_body (.node "text/plain" d1 parts snip) = snip ∧
      extract_message_body (.node "text/html" d1 parts snip) = snip) ∧
    (extract_from_part p = "" →
      extract_from_parts (p :: ps) = extract_from_parts ps) ∧
    (extract_message_body (.node mt d1 parts snip) =
      if extract_from_parts parts = "" then snip
      else extract_from_parts parts) ∧
    (d2 ≠ [] → decodeData d2 = some t →
      extract_message_body (.node "text/plain" d2 parts snip) = t ∧
      extract_message_body (.node "text/html" d2 parts snip) = stripTags t) := by
  refine ⟨fun hfail => ?_, fun hp => ?_, ?_, fun hne hdec => ?_⟩
  · have hguard : (if d1 ≠ [] then decodeData d1 else none) = none := by
      by_cases hd : d1 = []
      · rw [if_neg (by simp [hd])]
      · rw [if_pos hd, hfail]
    have hguard2 :
        (if d1 ≠ [] then (decodeData d1).map stripTags else none) = none := by
      by_cases hd : d1 = []
      · rw [if_neg (by simp [hd])]
      · rw [if_pos hd, hfail]
        rfl
    refine ⟨?_, ?_, ?_, ?_⟩
    · unfold extract_from_part
      rw [if_pos rfl]
      by_cases hd : d1 = []
      · rw [if_neg (by simp [hd])]
      · rw [if_pos hd, hfail]
    · unfold extract_from_part
      rw [if_neg (by decide), if_pos rfl]
      by_cases hd : d1 = []
      · rw [if_neg (by simp [hd])]
      · rw [if_pos hd, hfail]
    · unfold extract_message_body
      dsimp only
      rw [if_pos rfl, hguard]
    · unfold extract_message_body
      dsimp only
      rw [if_neg (by decide), if_pos rfl, hguard2]
  · rw [show extract_from_parts (p :: ps) =
        if extract_from_part p ≠ "" then extract_from_part p
        else extract_from_parts ps from rfl]
    rw [if_neg (by simp [hp])]
  · unfold extract_message_body
    dsimp only
    rw [if_neg hmt1, if_neg hmt2]
  · refine ⟨?_, ?_⟩
    · unfold extract_message_body
      dsimp only
      rw [if_pos rfl, if_pos hne, hdec]
    · unfold extract_message_body
      dsimp only
      rw [if_neg (by decide), if_pos rfl, if_pos hne, hdec]
      rfl

/-- Witness for the amended C5: the undecodable part yields `""`, the search
skips it and still finds the plain sibling, a composite with only failing
parts falls back to the snippet, and a decodable top-level part returns its
full text. -/
theorem body_decoder_totality_snippet_witness :
    extract_from_part badPlain = "" ∧
    extract_from_parts [badPlain, plainPart] = extract_from_parts [plainPart] ∧
    extract_message_body
      (.node "multipart/mixed" "a".data [badPlain, plainPart] "snip") =
      "PlainText" ∧
    extract_message_body (.node "multipart/mixed" "a".data [badPlain] "snip") =
      "snip" ∧
    extract_message_body
      (.node "text/plain" (encodeData "Exact body") [badPlain] "snip") =
      "Exact body" := by
  obtain ⟨h1, h2, h3, h4⟩ := body_decoder_totality_snippet "multipart/mixed"
    "a".data (encodeData "Exact body") "Exact body" badPlain [plainPart]
    [badPlain, plainPart] "" "snip" (by decide) (by decide)
  obtain ⟨h1a, -, -, -⟩ := h1 (by decide)
  obtain ⟨h4a, -⟩ := h4 (by decide) (by decide)
  refine ⟨h1a, h2 (by decide), ?_, ?_, ?_⟩
  · rw [h3]; decide
  · have := (body_decoder_totality_snippet "multipart/mixed" "a".data
      (encodeData "Exact body") "Exact body" badPlain [plainPart] [badPlain]
      "" "snip" (by decide) (by decide)).2.2.1
    rw [this]; decide
  · have := (body_decoder_totality_snippet "multipart/mixed" "a".data
      (encodeData "Exact body") "Exact body" badPlain [plainPart] [badPlain]
      "" "snip" (by decide) (by decide)).2.2.2 (by decide) (by decide)
    exact this.1

/-- A 1000-character decoded body. -/
def longBody : String := String.mk (List.replicate 1000 'a')

/-- A message carrying the 1000-character body. -/
def longMsg : MessageData :=
  ⟨"Subject", "sender@example.com", "2025-09-16 10:00:00 UTC", longBody,
    "t1", "sn"⟩

set_option maxRecDepth 100000 in
/-- Counterexample to C7's "capped for display": the preview block carries
the decoded body verbatim inside the fenced code block — for a 1000-character
body the rendered mrkdwn text has length 1017 = 14 + 1000 + 3, so no display
cap is applied at any length. -/
theorem slack_payload_uncapped_counterexample :
    slack_payload "#forth-alerts" "Gmail Monitor" "q" longMsg =
      Json.obj
        [("text", Json.str ("📧 New Email: " ++ "Subject")),
         ("channel", Json.str "#forth-alerts"),
         ("username", Json.str "Gmail Monitor"),
         ("blocks", Json.arr
           [Json.obj [("type", Json.str "header"),
              ("text", Json.obj [("type", Json.str "plain_text"),
                ("text", Json.str ("📧 " ++ "Subject"))])],
            Json.obj [("type", Json.str "section"),
              ("fields", Json.arr
                [Json.obj [("type", Json.str "mrkdwn"),
                   ("text", Json.str ("*From:*\n" ++ "sender@example.com"))],
                 Json.obj [("type", Json.str "mrkdwn"),
                   ("text", Json.str
                     ("*Date:*\n" ++ "2025-09-16 10:00:00 UTC"))]])],
            Json.obj [("type", Json.str "section"),
              ("text", Json.obj [("type", Json.str "mrkdwn"),
                ("text", Json.str ("*Query:* `" ++ "q" ++ "`"))])],
            Json.obj [("type", Json.str "section"),
              ("text", Json.obj [("type", Json.str "mrkdwn"),
                ("text", Json.str ("*Preview:*\n```" ++ longBody ++ "```"))])],
            Json.obj [("type", Json.str "actions"),
              ("elements", Json.arr
                [Json.obj [("type", Json.str "button"),
                  ("text", Json.obj [("type", Json.str "plain_text"),
                    ("text", Json.str "Open in Gmail")]),
                  ("url", Json.str
                    ("https://mail.google.com/mail/u/0/#inbox/" ++ "t1")),
                  ("action_id", Json.str "open_gmail")]])]])] ∧
    longBody.length = 1000 ∧
    ("*Preview:*\n```" ++ longBody ++ "```").length = 1017 := by
  refine ⟨?_, by decide, by decide⟩
  rfl

/-- Claim C7, amended — Rendered notification payload schema: the notifier
builds a JSON object with `text`, `channel`, `username` and `blocks` in this
exact order; the blocks are the header (subject), the two-field mrkdwn
From/Date section, the query-echo section, then — present exactly when the
decoded body is non-empty — a section whose mrkdwn text wraps the *entire*
decoded body (verbatim, uncapped) in a fenced code block, and finally the
actions block with one button carrying the thread deep link and the fixed
`open_gmail` action identifier. -/
theorem slack_payload_schema (channel username gmail_query : String)
    (m : MessageData) :
    slack_payload channel username gmail_query m =
      Json.obj
        [("text", Json.str ("📧 New Email: " ++ m.subject)),
         ("channel", Json.str channel),
         ("username", Json.str username),
         ("blocks", Json.arr
           ([Json.obj [("type", Json.str "header"),
               ("text", Json.obj [("type", Json.str "plain_text"),
                 ("text", Json.str ("📧 " ++ m.subject))])],
             Json.obj [("type", Json.str "section"),
               ("fields", Json.arr
                 [Json.obj [("type", Json.str "mrkdwn"),
                    ("text", Json.str ("*From:*\n" ++ m.sender))],
                  Json.obj [("type", Json.str "mrkdwn"),
                    ("text", Json.str ("*Date:*\n" ++ m.date))]])],
             Json.obj [("type", Json.str "section"),
               ("text", Json.obj [("type", Json.str "mrkdwn"),
                 ("text", Json.str ("*Query:* `" ++ gmail_query ++ "`"))])]] ++
            (if m.body = "" then []
             else
               [Json.obj [("type", Json.str "section"),
                 ("text", Json.obj [("type", Json.str "mrkdwn"),
                   ("text", Json.str
                     ("*Preview:*\n```" ++ m.body ++ "```"))])]]) ++
            [Json.obj [("type", Json.str "actions"),
              ("elements", Json.arr
                [Json.obj [("type", Json.str "button"),
                  ("text", Json.obj [("type", Json.str "plain_text"),
                    ("text", Json.str "Open in Gmail")]),
                  ("url", Json.str
                    ("https://mail.google.com/mail/u/0/#inbox/" ++
                      m.thread_id)),
                  ("action_id", Json.str "open_gmail")]])]]))] := by
  unfold slack_payload gmail_link
  dsimp only
  by_cases hb : m.body = ""
  · rw [if_neg (show ¬(m.body ≠ "") from by simp [hb]), if_pos hb]
    try simp
  · rw [if_pos hb, if_neg hb]
    try simp

end ForthMonitor
